import Mathlib

/-!
Verification of the type-load-level discipline of `src/coreclr/utilcode/clrhost.cpp`
(`LoadsTypeHolder::LoadsTypeHolder` and `LoadsTypeHolder::~LoadsTypeHolder`).

The per-thread `ClrDebugState` is embedded as a record holding the violation mask,
the maximum permitted type-load level, and the contract stack trace.  The intrusive
singly linked trace chain (`m_pContractStackTrace` head pointer, records linked by
`m_pNext`) is embedded as a Lean list whose head is the record most recently pushed:
consing a record models setting the head pointer to a record whose `m_pNext` is the
previous head.  Machine `UINT` values are embedded as `Nat`, with bitwise complement
written as xor against `UINT32_MAX` and left shifts reduced modulo `2 ^ 32`.

Constructor and destructor are embedded as pure state transformers; the number of
`CONTRACT_ASSERT` reports raised during construction is returned explicitly.
-/

/-- Modelled from the spec: the `LoadsTypeViolation` bit of the violation mask
(§3 `violation_mask: Bitset<ViolationKind>`).  The enum `ContractViolationBits`
lives in `contract.h`, which is not part of the source tree; only the bit's
distinctness from `BadDebugState` matters, the concrete value is a model choice. -/
def LoadsTypeViolation : Nat := 0x00000040

/-- Modelled from the spec: the `BadDebugState` bit of the violation mask
(§3, §9 open question).  Defined in `contract.h`, which is not in the source
tree; chosen as a bit distinct from `LoadsTypeViolation`. -/
def BadDebugState : Nat := 0x00000200

/-- Modelled from the spec: shift of the `LOADS_TYPE` field inside a contract test
mask (`Contract::LOADS_TYPE_Shift` of `contract.h`, not in the source tree). -/
def Contract.LOADS_TYPE_Shift : Nat := 10

/-- Modelled from the spec: mask of the `LOADS_TYPE` field inside a contract test
mask (`Contract::LOADS_TYPE_Mask` of `contract.h`, not in the source tree).
A four-bit field at `LOADS_TYPE_Shift`. -/
def Contract.LOADS_TYPE_Mask : Nat := 0x00003C00

/-- Modelled from the spec: `Contract::ALL_Disabled` of `contract.h` (not in the
source tree): the all-fields-disabled test mask.  Chosen so that it has bits both
inside and outside the `LOADS_TYPE` field, exercising the masking in the source
expression `ALL_Disabled & ~LOADS_TYPE_Mask`. -/
def Contract.ALL_Disabled : Nat := 0x00003FFF

/-- The all-ones 32-bit word; `~x` on a `UINT` is embedded as `UINT32_MAX ^^^ x`. -/
def UINT32_MAX : Nat := 2 ^ 32 - 1

/-- One `ContractStackRecord` as filled in by `LoadsTypeHolder::LoadsTypeHolder`
(clrhost.cpp lines 171-175).  The `m_pNext` back-link is represented by the
position of the record in the chain list of `ClrDebugState`. -/
structure ContractStackRecord where
  m_szFunction : String
  m_szFile : String
  m_lineNum : Int
  m_testmask : Nat
  m_construct : String
  deriving DecidableEq, Repr

/-- The per-thread debug state observed and mutated by the holder: violation mask,
maximum permitted type-load level, and the head of the contract stack trace
(embedded as the list of records, innermost first). -/
structure ClrDebugState where
  m_violationMask : Nat
  m_maxLoadTypeLevel : Nat
  m_pContractStackTrace : List ContractStackRecord
  deriving DecidableEq, Repr

/-- Accessor `ClrDebugState::ViolationMask()`. -/
def ClrDebugState.ViolationMask (s : ClrDebugState) : Nat :=
  s.m_violationMask

/-- Accessor `ClrDebugState::GetMaxLoadTypeLevel()`. -/
def ClrDebugState.GetMaxLoadTypeLevel (s : ClrDebugState) : Nat :=
  s.m_maxLoadTypeLevel

/-- Mutator `ClrDebugState::SetMaxLoadTypeLevel(newLevel)`. -/
def ClrDebugState.SetMaxLoadTypeLevel (s : ClrDebugState) (newLevel : Nat) : ClrDebugState :=
  { s with m_maxLoadTypeLevel := newLevel }

/-- Mutator `ClrDebugState::ViolationMaskReset(mask)`: clears the given bits,
`m_violationMask &= ~mask` on a `UINT`. -/
def ClrDebugState.ViolationMaskReset (s : ClrDebugState) (mask : Nat) : ClrDebugState :=
  { s with m_violationMask := s.m_violationMask &&& (UINT32_MAX ^^^ mask) }

/-- Accessor `ClrDebugState::GetContractStackTrace()`: the chain headed by the
current head pointer. -/
def ClrDebugState.GetContractStackTrace (s : ClrDebugState) : List ContractStackRecord :=
  s.m_pContractStackTrace

/-- Mutator `ClrDebugState::SetContractStackTrace(p)`: installs a new head. -/
def ClrDebugState.SetContractStackTrace (s : ClrDebugState)
    (chain : List ContractStackRecord) : ClrDebugState :=
  { s with m_pContractStackTrace := chain }

/-- The holder object: `m_fConditional`, the retained snapshot
`m_oldClrDebugState` (whole-struct copy, line 149), and the stack record the
holder owns.  The latter two are uninitialised in the inactive case, embedded
as `none`. -/
structure LoadsTypeHolder where
  m_fConditional : Bool
  m_oldClrDebugState : Option ClrDebugState
  m_contractStackRecord : Option ContractStackRecord
  deriving DecidableEq, Repr

/-- `LoadsTypeHolder::LoadsTypeHolder` (clrhost.cpp lines 129-181) acting on a
thread state that is known to be set up.  Returns the holder, the new thread
state, and the number of `CONTRACT_ASSERT` reports raised (0 or 1). -/
def LoadsTypeHolder.construct (fConditional : Bool) (newLevel : Nat)
    (fEnforceLevelChangeDirection : Bool) (szFunction szFile : String)
    (lineNum : Int) (s : ClrDebugState) : LoadsTypeHolder × ClrDebugState × Nat :=
  if fConditional then
    let oldClrDebugState := s
    let asserts :=
      if fEnforceLevelChangeDirection then
        if s.GetMaxLoadTypeLevel < newLevel then
          if (LoadsTypeViolation ||| BadDebugState) &&& s.ViolationMask = 0 then 1 else 0
        else 0
      else 0
    let s1 := s.ViolationMaskReset LoadsTypeViolation
    let s2 := s1.SetMaxLoadTypeLevel newLevel
    let csr : ContractStackRecord :=
      { m_szFunction := szFunction
        m_szFile := szFile
        m_lineNum := lineNum
        m_testmask := (Contract.ALL_Disabled &&& (UINT32_MAX ^^^ Contract.LOADS_TYPE_Mask)) |||
          (((newLevel + 1) <<< Contract.LOADS_TYPE_Shift) % 2 ^ 32)
        m_construct :=
          if fEnforceLevelChangeDirection then "TRIGGERS_TYPE_LOAD"
          else "OVERRIDE_TYPE_LOAD_LEVEL_LIMIT" }
    let s3 := s2.SetContractStackTrace (csr :: s2.GetContractStackTrace)
    (⟨true, some oldClrDebugState, some csr⟩, s3, asserts)
  else
    (⟨false, none, none⟩, s, 0)

/-- `LoadsTypeHolder::~LoadsTypeHolder` (clrhost.cpp lines 186-198): when the
holder is conditional, the whole thread state is overwritten with the retained
snapshot (`*m_pClrDebugState = m_oldClrDebugState`), whatever the state holds at
destruction time; otherwise nothing happens.  In C++ the destructor runs on every
exit path of the scope, normal or unwinding, so this one function is the model of
both paths. -/
def LoadsTypeHolder.destruct (h : LoadsTypeHolder) (s : ClrDebugState) : ClrDebugState :=
  if h.m_fConditional then h.m_oldClrDebugState.getD s else s

/-- Modelled from the spec: `CheckClrDebugState` (contract.h, not in the source
tree) returns the calling thread's debug state without creating it, or null when
it was never set up; the thread state is passed explicitly as an `Option`. -/
def CheckClrDebugState (os : Option ClrDebugState) : Option ClrDebugState :=
  os

/-- `LoadsTypeHolder::LoadsTypeHolder` acting on a thread whose debug state may
not be set up.  On the conditional path the code dereferences
`CheckClrDebugState()` (guarded by `_ASSERTE(m_pClrDebugState)`, line 147), so a
missing state is a failure, embedded as `none`; the inactive path never consults
the state at all. -/
def LoadsTypeHolder.constructOpt (fConditional : Bool) (newLevel : Nat)
    (fEnforceLevelChangeDirection : Bool) (szFunction szFile : String)
    (lineNum : Int) (os : Option ClrDebugState) :
    Option (LoadsTypeHolder × Option ClrDebugState × Nat) :=
  if fConditional then
    match CheckClrDebugState os with
    | none => none
    | some s =>
      let r := LoadsTypeHolder.construct true newLevel fEnforceLevelChangeDirection
        szFunction szFile lineNum s
      some (r.1, some r.2.1, r.2.2)
  else
    some (⟨false, none, none⟩, os, 0)

/-- Destructor on a thread whose debug state may not be set up: the inactive
path touches nothing. -/
def LoadsTypeHolder.destructOpt (h : LoadsTypeHolder) (os : Option ClrDebugState) :
    Option ClrDebugState :=
  if h.m_fConditional then
    match h.m_oldClrDebugState with
    | some old => some old
    | none => os
  else os

/-- Well-nested programs of guard scopes: `done` is an empty program, and
`guard c n e fn fl ln body rest` constructs a holder, runs `body` inside it,
destroys the holder, and continues with `rest`.  The shape of the type is what
enforces the strict LIFO discipline of stack-allocated holders. -/
inductive GuardProg where
  | done : GuardProg
  | guard (fConditional : Bool) (newLevel : Nat) (fEnforceLevelChangeDirection : Bool)
      (szFunction szFile : String) (lineNum : Int)
      (body rest : GuardProg) : GuardProg
  deriving DecidableEq, Repr

/-- Instrumented execution of a `GuardProg`.  Besides the final state it collects
an observation at every program point (entry of each sub-program): the stack of
`newLevel` values installed by the still-live active guards, innermost first,
paired with the thread's max load level at that point. -/
def runObs : GuardProg → ClrDebugState → List Nat → ClrDebugState × List (List Nat × Nat)
  | .done, s, stk => (s, [(stk, s.GetMaxLoadTypeLevel)])
  | .guard c n e fn fl ln body rest, s, stk =>
    let r := LoadsTypeHolder.construct c n e fn fl ln s
    let stk1 := if c then n :: stk else stk
    let rb := runObs body r.2.1 stk1
    let s3 := r.1.destruct rb.1
    let rr := runObs rest s3 stk
    (rr.1, (stk, s.GetMaxLoadTypeLevel) :: (rb.2 ++ rr.2))

/-- Clearing bits with a 32-bit complement really clears them: for any word `x`
and any mask `L` below `2 ^ w`, `(x AND NOT L) AND L = 0`. -/
theorem and_comp_and_self (x L w : Nat) (hL : L < 2 ^ w) :
    (x &&& ((2 ^ w - 1) ^^^ L)) &&& L = 0 := by
  apply Nat.eq_of_testBit_eq
  intro i
  simp only [Nat.testBit_and, Nat.testBit_xor, Nat.testBit_two_pow_sub_one, Nat.zero_testBit]
  by_cases hbit : L.testBit i
  · have hi : i < w := by
      by_contra hge
      have hlt : L < 2 ^ i :=
        lt_of_lt_of_le hL (Nat.pow_le_pow_right (by norm_num) (le_of_not_lt hge))
      simp [Nat.testBit_lt_two_pow hlt] at hbit
    simp [hbit, hi]
  · simp [hbit]

/-- Clearing bits with a 32-bit complement leaves disjoint bits alone: when the
bits of `B` are disjoint from `L` and below `2 ^ w`, `(x AND NOT L) AND B = x AND B`. -/
theorem and_comp_and_other (x L B w : Nat) (hB : B < 2 ^ w) (hdisj : L &&& B = 0) :
    (x &&& ((2 ^ w - 1) ^^^ L)) &&& B = x &&& B := by
  apply Nat.eq_of_testBit_eq
  intro i
  simp only [Nat.testBit_and, Nat.testBit_xor, Nat.testBit_two_pow_sub_one]
  by_cases hbit : B.testBit i
  · have hi : i < w := by
      by_contra hge
      have hlt : B < 2 ^ i :=
        lt_of_lt_of_le hB (Nat.pow_le_pow_right (by norm_num) (le_of_not_lt hge))
      simp [Nat.testBit_lt_two_pow hlt] at hbit
    have hLi : L.testBit i = false := by
      have hz := congrArg (fun m => m.testBit i) hdisj
      simp only [Nat.testBit_and, Nat.zero_testBit] at hz
      cases hLi : L.testBit i <;> simp [hLi, hbit] at hz ⊢
    simp [hbit, hi, hLi]
  · simp [hbit]

/-- Bitwise conjunction distributes over disjunction on `Nat`. -/
theorem or_and_distrib (a b m : Nat) : (a ||| b) &&& m = (a &&& m) ||| (b &&& m) := by
  apply Nat.eq_of_testBit_eq
  intro i
  simp only [Nat.testBit_and, Nat.testBit_or]
  cases a.testBit i <;> cases b.testBit i <;> simp

/-- A disjunction of words is nonzero when either side is. -/
theorem or_ne_zero (a b : Nat) (h : a ≠ 0 ∨ b ≠ 0) : a ||| b ≠ 0 := by
  intro h0
  have hbits : ∀ i, a.testBit i = false ∧ b.testBit i = false := by
    intro i
    have := congrArg (fun m => m.testBit i) h0
    simp only [Nat.testBit_or, Nat.zero_testBit] at this
    exact ⟨by cases ha : a.testBit i <;> simp [ha] at this ⊢,
           by cases hb : b.testBit i <;> simp [hb] at this ⊢⟩
  rcases h with h | h
  · exact h (Nat.eq_of_testBit_eq fun i => by simp [(hbits i).1, Nat.zero_testBit])
  · exact h (Nat.eq_of_testBit_eq fun i => by simp [(hbits i).2, Nat.zero_testBit])

/-- Destroying a holder built by an active construction restores the exact
pre-construction state, no matter what the thread state holds at destruction
time. -/
theorem destruct_construct_active (n : Nat) (e : Bool) (fn fl : String) (ln : Int)
    (s t : ClrDebugState) :
    (LoadsTypeHolder.construct true n e fn fl ln s).1.destruct t = s := by
  simp [LoadsTypeHolder.construct, LoadsTypeHolder.destruct]

/-- An active construction installs `newLevel` as the thread's max load level. -/
theorem construct_active_level (n : Nat) (e : Bool) (fn fl : String) (ln : Int)
    (s : ClrDebugState) :
    (LoadsTypeHolder.construct true n e fn fl ln s).2.1.GetMaxLoadTypeLevel = n := by
  simp [LoadsTypeHolder.construct, ClrDebugState.GetMaxLoadTypeLevel,
    ClrDebugState.SetMaxLoadTypeLevel, ClrDebugState.SetContractStackTrace,
    ClrDebugState.ViolationMaskReset]

/-- An inactive construction is the identity on the thread state and reports
nothing. -/
theorem construct_inactive (n : Nat) (e : Bool) (fn fl : String) (ln : Int)
    (s : ClrDebugState) :
    LoadsTypeHolder.construct false n e fn fl ln s = (⟨false, none, none⟩, s, 0) := by
  simp [LoadsTypeHolder.construct]

/-- The destructor of an inactive holder is the identity. -/
theorem destruct_inactive (t : ClrDebugState) :
    LoadsTypeHolder.destruct ⟨false, none, none⟩ t = t := by
  simp [LoadsTypeHolder.destruct]

/-- The number of reports of an active construction, as a closed form read off
the nested conditionals of the source. -/
theorem construct_asserts (n : Nat) (e : Bool) (fn fl : String) (ln : Int)
    (s : ClrDebugState) :
    (LoadsTypeHolder.construct true n e fn fl ln s).2.2 =
      if e then
        if s.GetMaxLoadTypeLevel < n then
          if (LoadsTypeViolation ||| BadDebugState) &&& s.ViolationMask = 0 then 1 else 0
        else 0
      else 0 := by
  simp [LoadsTypeHolder.construct]

/-- The violation mask after an active construction is the old mask with the
`LoadsTypeViolation` bit cleared. -/
theorem construct_active_mask (n : Nat) (e : Bool) (fn fl : String) (ln : Int)
    (s : ClrDebugState) :
    (LoadsTypeHolder.construct true n e fn fl ln s).2.1.ViolationMask =
      s.ViolationMask &&& (UINT32_MAX ^^^ LoadsTypeViolation) := by
  simp [LoadsTypeHolder.construct, ClrDebugState.ViolationMask,
    ClrDebugState.SetMaxLoadTypeLevel, ClrDebugState.SetContractStackTrace,
    ClrDebugState.ViolationMaskReset]

/-- Reading the `LOADS_TYPE` field back out of the test mask computed by the
constructor yields `newLevel + 1`, for any level that fits the four-bit field. -/
theorem testmask_field (n : Nat) (h : n + 1 < 16) :
    (((Contract.ALL_Disabled &&& (UINT32_MAX ^^^ Contract.LOADS_TYPE_Mask)) |||
        (((n + 1) <<< Contract.LOADS_TYPE_Shift) % 2 ^ 32)) &&&
      Contract.LOADS_TYPE_Mask) >>> Contract.LOADS_TYPE_Shift = n + 1 := by
  have hn : n < 15 := by omega
  interval_cases n <;> decide

/-- Level invariant of instrumented execution: if the current max load level
agrees with the innermost live active level (default `d` when none), then it
still does after the program, and every observation collected along the way
sees as max load level the innermost live active level at that point. -/
theorem runObs_level_inv (p : GuardProg) :
    ∀ (s : ClrDebugState) (stk : List Nat) (d : Nat),
      s.GetMaxLoadTypeLevel = stk.headD d →
      (runObs p s stk).1.GetMaxLoadTypeLevel = stk.headD d ∧
      ∀ pr ∈ (runObs p s stk).2, pr.2 = pr.1.headD d := by
  induction p with
  | done =>
    intro s stk d h
    refine ⟨h, ?_⟩
    intro pr hpr
    simp only [runObs, List.mem_singleton] at hpr
    subst hpr
    exact h
  | guard c n e fn fl ln body rest ihb ihr =>
    intro s stk d h
    cases c with
    | true =>
      have hb := ihb (LoadsTypeHolder.construct true n e fn fl ln s).2.1 (n :: stk) d
        (by simp [construct_active_level, List.headD])
      have hdes : (LoadsTypeHolder.construct true n e fn fl ln s).1.destruct
          (runObs body (LoadsTypeHolder.construct true n e fn fl ln s).2.1 (n :: stk)).1 = s :=
        destruct_construct_active n e fn fl ln s _
      have hr := ihr ((LoadsTypeHolder.construct true n e fn fl ln s).1.destruct
          (runObs body (LoadsTypeHolder.construct true n e fn fl ln s).2.1 (n :: stk)).1)
        stk d (by rw [hdes]; exact h)
      constructor
      · simpa [runObs] using hr.1
      · intro pr hpr
        simp only [runObs, List.mem_cons, List.mem_append] at hpr
        rcases hpr with hpr | hpr | hpr
        · subst hpr; exact h
        · exact hb.2 pr hpr
        · exact hr.2 pr hpr
    | false =>
      have hcon : LoadsTypeHolder.construct false n e fn fl ln s = (⟨false, none, none⟩, s, 0) :=
        construct_inactive n e fn fl ln s
      have hb := ihb s stk d h
      have hr := ihr (runObs body s stk).1 stk d hb.1
      constructor
      · simpa [runObs, hcon, destruct_inactive] using hr.1
      · intro pr hpr
        simp only [runObs, hcon, destruct_inactive, List.mem_cons, List.mem_append] at hpr
        rcases hpr with hpr | hpr | hpr
        · subst hpr; exact h
        · exact hb.2 pr hpr
        · exact hr.2 pr hpr

/-- C1: an active triggers-mode construction with `newLevel` above the current
max load level raises exactly one report when the suppression condition (the
`LoadsTypeViolation` or `BadDebugState` bit of the thread's violation mask, the
two categories the source tests) does not hold, and zero reports when it does;
in both cases the max load level becomes `newLevel`. -/
theorem claim_C1_triggers_violation_report (s : ClrDebugState) (n : Nat)
    (fn fl : String) (ln : Int) (h : s.GetMaxLoadTypeLevel < n) :
    ((LoadsTypeViolation ||| BadDebugState) &&& s.ViolationMask = 0 →
      (LoadsTypeHolder.construct true n true fn fl ln s).2.2 = 1) ∧
    ((LoadsTypeViolation ||| BadDebugState) &&& s.ViolationMask ≠ 0 →
      (LoadsTypeHolder.construct true n true fn fl ln s).2.2 = 0) ∧
    (LoadsTypeHolder.construct true n true fn fl ln s).2.1.GetMaxLoadTypeLevel = n := by
  refine ⟨?_, ?_, construct_active_level n true fn fl ln s⟩
  · intro hs
    rw [construct_asserts]
    simp [h, hs]
  · intro hs
    rw [construct_asserts]
    simp [h, hs]

/-- Witness for C1 at a concrete input: ceiling 3, no suppression, triggers-mode
construction at level 5 reports once. -/
theorem claim_C1_witness :
    (LoadsTypeHolder.construct true 5 true "f" "g" 1 ⟨0, 3, []⟩).2.2 = 1 :=
  (claim_C1_triggers_violation_report ⟨0, 3, []⟩ 5 "f" "g" 1 (by decide)).1 (by decide)

/-- C2: destroying a holder built by an active construction restores the max
load level and the violation mask to their exact pre-construction values,
whatever state `t` the guarded scope left behind (so in particular on the
violation path too); the destructor is the single function run on every exit
path of the scope, normal or unwinding. -/
theorem claim_C2_destruction_restores (n : Nat) (e : Bool) (fn fl : String)
    (ln : Int) (s t : ClrDebugState) :
    ((LoadsTypeHolder.construct true n e fn fl ln s).1.destruct t).GetMaxLoadTypeLevel =
      s.GetMaxLoadTypeLevel ∧
    ((LoadsTypeHolder.construct true n e fn fl ln s).1.destruct t).ViolationMask =
      s.ViolationMask := by
  rw [destruct_construct_active]
  exact ⟨rfl, rfl⟩

/-- C3: an active triggers-mode construction at or below the current max load
level reports nothing, and an active override-mode construction reports nothing
at any level. -/
theorem claim_C3_quiet_cases (s : ClrDebugState) (n : Nat) (fn fl : String) (ln : Int) :
    (n ≤ s.GetMaxLoadTypeLevel →
      (LoadsTypeHolder.construct true n true fn fl ln s).2.2 = 0) ∧
    (LoadsTypeHolder.construct true n false fn fl ln s).2.2 = 0 := by
  constructor
  · intro hle
    rw [construct_asserts]
    simp [Nat.not_lt.mpr hle]
  · rw [construct_asserts]
    simp

/-- Witness for C3 at a concrete input: ceiling 5, triggers-mode construction at
level 2 reports nothing. -/
theorem claim_C3_witness :
    (LoadsTypeHolder.construct true 2 true "f" "g" 1 ⟨0, 5, []⟩).2.2 = 0 :=
  (claim_C3_quiet_cases ⟨0, 5, []⟩ 2 "f" "g" 1).1 (by decide)

/-- C4: every active construction clears the `LoadsTypeViolation` suppression
bit, so a check of that bit right after construction reads it as not
suppressed, whatever mask the enclosing scope had. -/
theorem claim_C4_suppression_rearmed (s : ClrDebugState) (n : Nat) (e : Bool)
    (fn fl : String) (ln : Int) :
    (LoadsTypeHolder.construct true n e fn fl ln s).2.1.ViolationMask &&&
      LoadsTypeViolation = 0 := by
  rw [construct_active_mask]
  simpa [UINT32_MAX] using
    and_comp_and_self s.ViolationMask LoadsTypeViolation 32 (by norm_num [LoadsTypeViolation])

/-- C5: along any well-nested sequence of guard constructions and destructions,
the max load level observed at any program point is the `newLevel` most recently
installed by a still-live active guard, or the initial level when none is live. -/
theorem claim_C5_stack_discipline (p : GuardProg) (s : ClrDebugState)
    (pr : List Nat × Nat) (hmem : pr ∈ (runObs p s []).2) :
    pr.2 = pr.1.headD s.GetMaxLoadTypeLevel :=
  (runObs_level_inv p s [] s.GetMaxLoadTypeLevel rfl).2 pr hmem

/-- Witness for C5 at a concrete input: the observation collected after an
active guard at level 3 has been destroyed again sees the initial level 5. -/
theorem claim_C5_witness :
    (([], 5) : List Nat × Nat).2 =
      (([], 5) : List Nat × Nat).1.headD
        (ClrDebugState.mk 0 5 []).GetMaxLoadTypeLevel :=
  claim_C5_stack_discipline (.guard true 3 true "f" "g" 1 .done .done) ⟨0, 5, []⟩
    ([], 5) (by decide)

/-- C6 counterexample: the claim says the restore performed at destruction
leaves the trace-chain head untouched; but destroying the guard from the very
state construction produced changes the trace-chain head (the source restores
the whole snapshot, head pointer included). -/
theorem claim_C6_counterexample :
    ((LoadsTypeHolder.construct true 3 true "fn" "fl" 1 ⟨0, 5, []⟩).1.destruct
        (LoadsTypeHolder.construct true 3 true "fn" "fl" 1 ⟨0, 5, []⟩).2.1).GetContractStackTrace ≠
      ((LoadsTypeHolder.construct true 3 true "fn" "fl" 1 ⟨0, 5, []⟩).2.1).GetContractStackTrace := by
  decide

/-- C6 amended: the snapshot retained at construction is a copy of the whole
per-thread record, the trace-chain head pointer included (though not the chain's
nodes, which stay stack-owned), and the restore at destruction writes back that
whole snapshot; it is this restore that resets the trace-chain head to its
pre-construction value, detaching the pushed record. -/
theorem claim_C6_full_snapshot_restore (s t : ClrDebugState) (n : Nat) (e : Bool)
    (fn fl : String) (ln : Int) :
    (LoadsTypeHolder.construct true n e fn fl ln s).1.m_oldClrDebugState = some s ∧
    (LoadsTypeHolder.construct true n e fn fl ln s).1.destruct t = s ∧
    ((LoadsTypeHolder.construct true n e fn fl ln s).1.destruct t).GetContractStackTrace =
      s.GetContractStackTrace := by
  refine ⟨?_, destruct_construct_active n e fn fl ln s t, ?_⟩
  · simp [LoadsTypeHolder.construct]
  · rw [destruct_construct_active]

/-- C7: an inactive guard is a complete no-op: construction returns the state
unchanged and reports nothing, and destruction is the identity on whatever state
it is given, so level, mask and trace-chain head are all untouched. -/
theorem claim_C7_inactive_noop (s t : ClrDebugState) (n : Nat) (e : Bool)
    (fn fl : String) (ln : Int) :
    (LoadsTypeHolder.construct false n e fn fl ln s).2.1 = s ∧
    (LoadsTypeHolder.construct false n e fn fl ln s).2.2 = 0 ∧
    (LoadsTypeHolder.construct false n e fn fl ln s).1.destruct t = t := by
  rw [construct_inactive]
  exact ⟨rfl, rfl, destruct_inactive t⟩

/-- C8: every active construction pushes exactly one new record as the new head
of the trace chain, linked to the previous head, carrying the call site, the
mode label selected by the enforcement direction, and a test mask whose
`LOADS_TYPE` field holds `newLevel + 1` (for levels fitting the modelled
four-bit field). -/
theorem claim_C8_trace_record_push (s : ClrDebugState) (n : Nat) (e : Bool)
    (fn fl : String) (ln : Int) (h : n + 1 < 16) :
    ∃ csr : ContractStackRecord,
      (LoadsTypeHolder.construct true n e fn fl ln s).2.1.GetContractStackTrace =
        csr :: s.GetContractStackTrace ∧
      csr.m_szFunction = fn ∧ csr.m_szFile = fl ∧ csr.m_lineNum = ln ∧
      csr.m_construct =
        (if e then "TRIGGERS_TYPE_LOAD" else "OVERRIDE_TYPE_LOAD_LEVEL_LIMIT") ∧
      (csr.m_testmask &&& Contract.LOADS_TYPE_Mask) >>> Contract.LOADS_TYPE_Shift = n + 1 := by
  refine ⟨{ m_szFunction := fn
            m_szFile := fl
            m_lineNum := ln
            m_testmask := (Contract.ALL_Disabled &&& (UINT32_MAX ^^^ Contract.LOADS_TYPE_Mask)) |||
              (((n + 1) <<< Contract.LOADS_TYPE_Shift) % 2 ^ 32)
            m_construct :=
              if e then "TRIGGERS_TYPE_LOAD" else "OVERRIDE_TYPE_LOAD_LEVEL_LIMIT" },
    ?_, rfl, rfl, rfl, rfl, testmask_field n h⟩
  simp [LoadsTypeHolder.construct, ClrDebugState.GetContractStackTrace,
    ClrDebugState.SetContractStackTrace, ClrDebugState.SetMaxLoadTypeLevel,
    ClrDebugState.ViolationMaskReset]

/-- Witness for C8 at a concrete input: a triggers-mode construction at level 3
over ceiling 5 pushes the expected record. -/
theorem claim_C8_witness :
    ∃ csr : ContractStackRecord,
      (LoadsTypeHolder.construct true 3 true "f" "g" 1 ⟨0, 5, []⟩).2.1.GetContractStackTrace =
        csr :: (ClrDebugState.mk 0 5 []).GetContractStackTrace ∧
      csr.m_szFunction = "f" ∧ csr.m_szFile = "g" ∧ csr.m_lineNum = 1 ∧
      csr.m_construct =
        (if true then "TRIGGERS_TYPE_LOAD" else "OVERRIDE_TYPE_LOAD_LEVEL_LIMIT") ∧
      (csr.m_testmask &&& Contract.LOADS_TYPE_Mask) >>> Contract.LOADS_TYPE_Shift = 3 + 1 :=
  claim_C8_trace_record_push ⟨0, 5, []⟩ 3 true "f" "g" 1 (by decide)

/-- C9: the suppression test of the source checks the `LoadsTypeViolation` and
`BadDebugState` bits together, so either bit being set withholds the report of
an illegal ascent; yet construction clears only the `LoadsTypeViolation` bit,
leaving the `BadDebugState` bit exactly as it was, so a `BadDebugState`
suppression set before construction is still in effect inside the scope. -/
theorem claim_C9_either_bit_suppresses (s : ClrDebugState) (n : Nat)
    (fn fl : String) (ln : Int) (h : s.GetMaxLoadTypeLevel < n) :
    ((s.ViolationMask &&& LoadsTypeViolation ≠ 0 ∨ s.ViolationMask &&& BadDebugState ≠ 0) →
      (LoadsTypeHolder.construct true n true fn fl ln s).2.2 = 0) ∧
    (LoadsTypeHolder.construct true n true fn fl ln s).2.1.ViolationMask &&&
      LoadsTypeViolation = 0 ∧
    (LoadsTypeHolder.construct true n true fn fl ln s).2.1.ViolationMask &&&
      BadDebugState = s.ViolationMask &&& BadDebugState := by
  refine ⟨?_, ?_, ?_⟩
  · intro hs
    rw [construct_asserts]
    have hne : (LoadsTypeViolation ||| BadDebugState) &&& s.ViolationMask ≠ 0 := by
      rw [or_and_distrib]
      apply or_ne_zero
      rcases hs with hs | hs
      · exact Or.inl (by rwa [Nat.and_comm] at hs)
      · exact Or.inr (by rwa [Nat.and_comm] at hs)
    simp [h, hne]
  · rw [construct_active_mask]
    simpa [UINT32_MAX] using
      and_comp_and_self s.ViolationMask LoadsTypeViolation 32 (by norm_num [LoadsTypeViolation])
  · rw [construct_active_mask]
    simpa [UINT32_MAX] using
      and_comp_and_other s.ViolationMask LoadsTypeViolation BadDebugState 32
        (by norm_num [BadDebugState]) (by decide)

/-- Witness for C9 at a concrete input: with only the `BadDebugState` bit set,
an illegal ascent from ceiling 2 to level 9 reports nothing. -/
theorem claim_C9_witness :
    (LoadsTypeHolder.construct true 9 true "f" "g" 1 ⟨0x200, 2, []⟩).2.2 = 0 :=
  (claim_C9_either_bit_suppresses ⟨0x200, 2, []⟩ 9 "f" "g" 1 (by decide)).1
    (Or.inr (by decide))

/-- C10: an inactive guard never consults the thread's debug state: construction
returns the state slot unchanged (also when it is `none`, a thread whose state
was never set up), fills none of the holder's other fields, reports nothing, and
destruction leaves the state slot alone. -/
theorem claim_C10_inactive_never_reads (n : Nat) (e : Bool) (fn fl : String)
    (ln : Int) (os : Option ClrDebugState) :
    LoadsTypeHolder.constructOpt false n e fn fl ln os =
      some (⟨false, none, none⟩, os, 0) ∧
    LoadsTypeHolder.destructOpt ⟨false, none, none⟩ os = os := by
  constructor
  · simp [LoadsTypeHolder.constructOpt]
  · simp [LoadsTypeHolder.destructOpt]
